import Mathlib

/-!
# Allocator indirection shim of `tinyobj_loader_build.c`

A shallow embedding of `src/shared/tinyobjloader/src/tinyobj_loader_build.c`:
the four global function-pointer slots, the setter
`tinyobj_set_memory_callbacks`, and the four static wrappers
`tinyobjloader_malloc`, `tinyobjloader_realloc`, `tinyobjloader_calloc`,
`tinyobjloader_free`.

Modelling decisions.

* `void*` and the function-pointer types are addresses (`Nat`); `NULL` is `0`,
  and the source's `g == NULL` test is the test `g = NULL` on addresses.
* `size_t` values are `Nat`: the shim does no arithmetic on them, it only
  forwards them.
* The functions the wrappers call are not defined in the file; they are the
  fields of a `Platform W`, where `W` is the world outside the shim (the heap
  and whatever state the host's allocator keeps).
  - `malloc`, `realloc`, `calloc`, `free` come from the C library, which is
    built without any knowledge of the shim: they transform the world only.
  - The custom functions are code of the host application. The four globals
    are not `static` and the setter is public, so such a function may read
    the slots and may write them (directly or by calling the setter): a call
    through a function pointer transforms a `Store`, the four slots together
    with the world.
* Every call expression of the source appends one `Call` to a trace, so that
  "is invoked exactly once" and "is not invoked" can be stated.
-/

namespace TinyObjLoader

/-- A `void*` value. -/
abbrev Ptr := Nat

/-- A function-pointer value (`TinyObjLoader_Malloc`, `TinyObjLoader_Realloc`,
`TinyObjLoader_Calloc`, `TinyObjLoader_Free`). -/
abbrev FnPtr := Nat

/-- The null pointer constant of `<stddef.h>`. -/
def NULL : Nat := 0

/-- One call expression executed by the shim: either a call of a C library
function by name, or a call through one of the four global function pointers
(with the address that was called). -/
inductive Call where
  | malloc (size : Nat)
  | realloc (ptr : Ptr) (size : Nat)
  | calloc (count : Nat) (size : Nat)
  | free (ptr : Ptr)
  | custom_malloc (fn : FnPtr) (size : Nat)
  | custom_realloc (fn : FnPtr) (ptr : Ptr) (size : Nat)
  | custom_calloc (fn : FnPtr) (count : Nat) (size : Nat)
  | custom_free (fn : FnPtr) (ptr : Ptr)
  deriving DecidableEq, Repr

/-- Is the call one to a C library (platform default) function? -/
def Call.isDefault : Call → Bool
  | .malloc _ => true
  | .realloc _ _ => true
  | .calloc _ _ => true
  | .free _ => true
  | _ => false

/-- Number of calls of platform default functions in a trace. -/
def defaultCalls (tr : List Call) : Nat := tr.countP Call.isDefault

/-- Number of calls through a registered function pointer in a trace. -/
def customCalls (tr : List Call) : Nat := tr.countP (fun c => !c.isDefault)

/-- The four globals `g_tinyobjloader_malloc`, `g_tinyobjloader_realloc`,
`g_tinyobjloader_calloc`, `g_tinyobjloader_free` (source lines 9-12). -/
structure Registration where
  g_tinyobjloader_malloc : FnPtr
  g_tinyobjloader_realloc : FnPtr
  g_tinyobjloader_calloc : FnPtr
  g_tinyobjloader_free : FnPtr
  deriving DecidableEq, Repr

/-- What a function of the host application can read and write: the four
globals (they have external linkage) and the world. -/
structure Store (W : Type) where
  reg : Registration
  world : W

/-- The code the shim calls but does not define: the four C library functions,
which act on the world, and, for each function-pointer type, what a call
through a given address does, which acts on the four globals and the world. -/
structure Platform (W : Type) where
  malloc : Nat → W → Ptr × W
  realloc : Ptr → Nat → W → Ptr × W
  calloc : Nat → Nat → W → Ptr × W
  free : Ptr → W → W
  call_malloc : FnPtr → Nat → Store W → Ptr × Store W
  call_realloc : FnPtr → Ptr → Nat → Store W → Ptr × Store W
  call_calloc : FnPtr → Nat → Nat → Store W → Ptr × Store W
  call_free : FnPtr → Ptr → Store W → Store W

/-- Program state: the four globals, the world of the called functions, and the
trace of the calls made so far. -/
structure State (W : Type) where
  reg : Registration
  world : W
  trace : List Call

/-- The part of the state a called host function sees. -/
def State.store {W : Type} (s : State W) : Store W :=
  { reg := s.reg, world := s.world }

/-- The state at process start: each global is initialised with `= NULL`
(source lines 9-12) and no call has been made. -/
def initial {W : Type} (w : W) : State W :=
  { reg := { g_tinyobjloader_malloc := NULL
             g_tinyobjloader_realloc := NULL
             g_tinyobjloader_calloc := NULL
             g_tinyobjloader_free := NULL }
    world := w
    trace := [] }

/-- The setter `tinyobj_set_memory_callbacks` (source lines 14-24): four
assignments, one per global, in source order. -/
def tinyobj_set_memory_callbacks {W : Type} (malloc realloc calloc free : FnPtr)
    (s : State W) : State W :=
  let s1 : State W := { s with reg := { s.reg with g_tinyobjloader_malloc := malloc } }
  let s2 : State W := { s1 with reg := { s1.reg with g_tinyobjloader_realloc := realloc } }
  let s3 : State W := { s2 with reg := { s2.reg with g_tinyobjloader_calloc := calloc } }
  let s4 : State W := { s3 with reg := { s3.reg with g_tinyobjloader_free := free } }
  s4

/-- The wrapper `tinyobjloader_malloc` (source lines 26-31). -/
def tinyobjloader_malloc {W : Type} (P : Platform W) (size : Nat) (s : State W) :
    Ptr × State W :=
  if s.reg.g_tinyobjloader_malloc = NULL then
    let r := P.malloc size s.world
    (r.1, { s with world := r.2, trace := s.trace ++ [Call.malloc size] })
  else
    let r := P.call_malloc s.reg.g_tinyobjloader_malloc size s.store
    (r.1, { reg := r.2.reg
            world := r.2.world
            trace := s.trace ++ [Call.custom_malloc s.reg.g_tinyobjloader_malloc size] })

/-- The wrapper `tinyobjloader_realloc` (source lines 32-37). -/
def tinyobjloader_realloc {W : Type} (P : Platform W) (ptr : Ptr) (size : Nat) (s : State W) :
    Ptr × State W :=
  if s.reg.g_tinyobjloader_realloc = NULL then
    let r := P.realloc ptr size s.world
    (r.1, { s with world := r.2, trace := s.trace ++ [Call.realloc ptr size] })
  else
    let r := P.call_realloc s.reg.g_tinyobjloader_realloc ptr size s.store
    (r.1, { reg := r.2.reg
            world := r.2.world
            trace := s.trace ++
              [Call.custom_realloc s.reg.g_tinyobjloader_realloc ptr size] })

/-- The wrapper `tinyobjloader_calloc` (source lines 38-43). -/
def tinyobjloader_calloc {W : Type} (P : Platform W) (count size : Nat) (s : State W) :
    Ptr × State W :=
  if s.reg.g_tinyobjloader_calloc = NULL then
    let r := P.calloc count size s.world
    (r.1, { s with world := r.2, trace := s.trace ++ [Call.calloc count size] })
  else
    let r := P.call_calloc s.reg.g_tinyobjloader_calloc count size s.store
    (r.1, { reg := r.2.reg
            world := r.2.world
            trace := s.trace ++
              [Call.custom_calloc s.reg.g_tinyobjloader_calloc count size] })

/-- The wrapper `tinyobjloader_free` (source lines 44-50); it returns `void`. -/
def tinyobjloader_free {W : Type} (P : Platform W) (ptr : Ptr) (s : State W) : State W :=
  if s.reg.g_tinyobjloader_free = NULL then
    { s with world := P.free ptr s.world, trace := s.trace ++ [Call.free ptr] }
  else
    { reg := (P.call_free s.reg.g_tinyobjloader_free ptr s.store).reg
      world := (P.call_free s.reg.g_tinyobjloader_free ptr s.store).world
      trace := s.trace ++ [Call.custom_free s.reg.g_tinyobjloader_free ptr] }

/-- One wrapper call made by the included library through the macros
`TINYOBJ_MALLOC`, `TINYOBJ_REALLOC`, `TINYOBJ_CALLOC`, `TINYOBJ_FREE`
(source lines 53-56). -/
inductive Op where
  | malloc (size : Nat)
  | realloc (ptr : Ptr) (size : Nat)
  | calloc (count : Nat) (size : Nat)
  | free (ptr : Ptr)
  deriving DecidableEq, Repr

/-- The state after one wrapper call (the returned pointer is dropped). -/
def step {W : Type} (P : Platform W) (s : State W) : Op → State W
  | .malloc size => (tinyobjloader_malloc P size s).2
  | .realloc ptr size => (tinyobjloader_realloc P ptr size s).2
  | .calloc count size => (tinyobjloader_calloc P count size s).2
  | .free ptr => tinyobjloader_free P ptr s

/-- The state after a sequence of wrapper calls, first to last. -/
def run {W : Type} (P : Platform W) (ops : List Op) (s : State W) : State W :=
  ops.foldl (step P) s

/-! ## Vocabulary of the specification

The specification speaks of a call that "goes to the platform default" or
"invokes the custom function", and of "the function that services the call".
The definitions below say what these mean on the model; they are not taken from
the source. -/

/-- In state `t`, a call of the allocate wrapper is a call of the platform
default `malloc`: same result, same effect on the world, one `malloc` call. -/
def MallocDefault {W : Type} (P : Platform W) (t : State W) : Prop :=
  ∀ size : Nat,
    (tinyobjloader_malloc P size t).1 = (P.malloc size t.world).1 ∧
    (tinyobjloader_malloc P size t).2.world = (P.malloc size t.world).2 ∧
    (tinyobjloader_malloc P size t).2.trace = t.trace ++ [Call.malloc size]

/-- In state `t`, a call of the reallocate wrapper is a call of the platform
default `realloc`. -/
def ReallocDefault {W : Type} (P : Platform W) (t : State W) : Prop :=
  ∀ (ptr : Ptr) (size : Nat),
    (tinyobjloader_realloc P ptr size t).1 = (P.realloc ptr size t.world).1 ∧
    (tinyobjloader_realloc P ptr size t).2.world = (P.realloc ptr size t.world).2 ∧
    (tinyobjloader_realloc P ptr size t).2.trace = t.trace ++ [Call.realloc ptr size]

/-- In state `t`, a call of the zero-allocate wrapper is a call of the platform
default `calloc`. -/
def CallocDefault {W : Type} (P : Platform W) (t : State W) : Prop :=
  ∀ count size : Nat,
    (tinyobjloader_calloc P count size t).1 = (P.calloc count size t.world).1 ∧
    (tinyobjloader_calloc P count size t).2.world = (P.calloc count size t.world).2 ∧
    (tinyobjloader_calloc P count size t).2.trace = t.trace ++ [Call.calloc count size]

/-- In state `t`, a call of the free wrapper is a call of the platform default
`free`. -/
def FreeDefault {W : Type} (P : Platform W) (t : State W) : Prop :=
  ∀ ptr : Ptr,
    (tinyobjloader_free P ptr t).world = P.free ptr t.world ∧
    (tinyobjloader_free P ptr t).trace = t.trace ++ [Call.free ptr]

/-- In state `t`, a call of the allocate wrapper invokes the custom function at
`f` with the wrapper's argument and returns its result; the world afterwards is
the one `f` left. -/
def MallocCustom {W : Type} (P : Platform W) (f : FnPtr) (t : State W) : Prop :=
  ∀ size : Nat,
    (tinyobjloader_malloc P size t).1 = (P.call_malloc f size t.store).1 ∧
    (tinyobjloader_malloc P size t).2.world = (P.call_malloc f size t.store).2.world ∧
    (tinyobjloader_malloc P size t).2.trace = t.trace ++ [Call.custom_malloc f size]

/-- In state `t`, a call of the reallocate wrapper invokes the custom function
at `f` with the wrapper's arguments and returns its result. -/
def ReallocCustom {W : Type} (P : Platform W) (f : FnPtr) (t : State W) : Prop :=
  ∀ (ptr : Ptr) (size : Nat),
    (tinyobjloader_realloc P ptr size t).1 = (P.call_realloc f ptr size t.store).1 ∧
    (tinyobjloader_realloc P ptr size t).2.world =
      (P.call_realloc f ptr size t.store).2.world ∧
    (tinyobjloader_realloc P ptr size t).2.trace =
      t.trace ++ [Call.custom_realloc f ptr size]

/-- In state `t`, a call of the zero-allocate wrapper invokes the custom
function at `f` with the wrapper's arguments and returns its result. -/
def CallocCustom {W : Type} (P : Platform W) (f : FnPtr) (t : State W) : Prop :=
  ∀ count size : Nat,
    (tinyobjloader_calloc P count size t).1 = (P.call_calloc f count size t.store).1 ∧
    (tinyobjloader_calloc P count size t).2.world =
      (P.call_calloc f count size t.store).2.world ∧
    (tinyobjloader_calloc P count size t).2.trace =
      t.trace ++ [Call.custom_calloc f count size]

/-- In state `t`, a call of the free wrapper invokes the custom function at `f`
with the wrapper's argument. -/
def FreeCustom {W : Type} (P : Platform W) (f : FnPtr) (t : State W) : Prop :=
  ∀ ptr : Ptr,
    (tinyobjloader_free P ptr t).world = (P.call_free f ptr t.store).world ∧
    (tinyobjloader_free P ptr t).trace = t.trace ++ [Call.custom_free f ptr]

/-- In state `t` the allocate wrapper invokes the custom function at `f` and the
three other wrappers go to the platform default of their own kind. -/
def OnlyMallocCustom {W : Type} (P : Platform W) (f : FnPtr) (t : State W) : Prop :=
  MallocCustom P f t ∧ ReallocDefault P t ∧ CallocDefault P t ∧ FreeDefault P t

/-- In state `t` the reallocate wrapper invokes the custom function at `f` and
the three other wrappers go to the platform default of their own kind. -/
def OnlyReallocCustom {W : Type} (P : Platform W) (f : FnPtr) (t : State W) : Prop :=
  MallocDefault P t ∧ ReallocCustom P f t ∧ CallocDefault P t ∧ FreeDefault P t

/-- In state `t` the zero-allocate wrapper invokes the custom function at `f`
and the three other wrappers go to the platform default of their own kind. -/
def OnlyCallocCustom {W : Type} (P : Platform W) (f : FnPtr) (t : State W) : Prop :=
  MallocDefault P t ∧ ReallocDefault P t ∧ CallocCustom P f t ∧ FreeDefault P t

/-- In state `t` the free wrapper invokes the custom function at `f` and the
three other wrappers go to the platform default of their own kind. -/
def OnlyFreeCustom {W : Type} (P : Platform W) (f : FnPtr) (t : State W) : Prop :=
  MallocDefault P t ∧ ReallocDefault P t ∧ CallocDefault P t ∧ FreeCustom P f t

/-- The function that services an allocate call in state `s`, applied to the
call's argument: the registered custom function, or the default when the slot
is unset. The result and the world it leaves. -/
def serviced_malloc {W : Type} (P : Platform W) (s : State W) (size : Nat) : Ptr × W :=
  if s.reg.g_tinyobjloader_malloc = NULL then P.malloc size s.world
  else
    ((P.call_malloc s.reg.g_tinyobjloader_malloc size s.store).1,
     (P.call_malloc s.reg.g_tinyobjloader_malloc size s.store).2.world)

/-- The function that services a reallocate call in state `s`, applied to the
call's arguments. -/
def serviced_realloc {W : Type} (P : Platform W) (s : State W) (ptr : Ptr) (size : Nat) :
    Ptr × W :=
  if s.reg.g_tinyobjloader_realloc = NULL then P.realloc ptr size s.world
  else
    ((P.call_realloc s.reg.g_tinyobjloader_realloc ptr size s.store).1,
     (P.call_realloc s.reg.g_tinyobjloader_realloc ptr size s.store).2.world)

/-- The function that services a zero-allocate call in state `s`, applied to the
call's arguments. -/
def serviced_calloc {W : Type} (P : Platform W) (s : State W) (count size : Nat) : Ptr × W :=
  if s.reg.g_tinyobjloader_calloc = NULL then P.calloc count size s.world
  else
    ((P.call_calloc s.reg.g_tinyobjloader_calloc count size s.store).1,
     (P.call_calloc s.reg.g_tinyobjloader_calloc count size s.store).2.world)

/-- The calls made between state `before` and the later state `after`. -/
def callsDuring {W : Type} (before after : State W) : List Call :=
  after.trace.drop before.trace.length

/-- The custom functions registered in `r` leave the registration alone: each
non-null slot of `r` holds a function that, called while the registration is
`r`, returns with the registration still `r`. -/
def CalleesKeep {W : Type} (P : Platform W) (r : Registration) : Prop :=
  (r.g_tinyobjloader_malloc ≠ NULL → ∀ (size : Nat) (w : W),
    (P.call_malloc r.g_tinyobjloader_malloc size { reg := r, world := w }).2.reg = r) ∧
  (r.g_tinyobjloader_realloc ≠ NULL → ∀ (ptr : Ptr) (size : Nat) (w : W),
    (P.call_realloc r.g_tinyobjloader_realloc ptr size { reg := r, world := w }).2.reg = r) ∧
  (r.g_tinyobjloader_calloc ≠ NULL → ∀ (count size : Nat) (w : W),
    (P.call_calloc r.g_tinyobjloader_calloc count size { reg := r, world := w }).2.reg = r) ∧
  (r.g_tinyobjloader_free ≠ NULL → ∀ (ptr : Ptr) (w : W),
    (P.call_free r.g_tinyobjloader_free ptr { reg := r, world := w }).reg = r)

/-- Modelled from the spec: the world of the platform default allocator (the C
library, absent from the sources) together with the log of a recording custom
`free`: a break address, the live blocks with their bytes, and the pointers the
recording function was given. -/
structure RefWorld where
  brk : Nat
  blocks : List (Ptr × List Nat)
  recorded : List Ptr
  deriving DecidableEq, Repr

/-- Modelled from the spec: the empty heap of the reference platform. -/
def refEmpty : RefWorld := { brk := 0, blocks := [], recorded := [] }

/-- Modelled from the spec: the highest address the reference heap can hand out;
a request that does not fit fails with a null result. -/
def refCapacity : Nat := 65536

/-- Modelled from the spec: the byte standing for the indeterminate content of a
block that was not zero-initialised. -/
def refFill : Nat := 205

/-- Modelled from the spec: the block of the reference heap at address `p`, if
one is live. -/
def refBlock (w : RefWorld) (p : Ptr) : Option (List Nat) := w.blocks.lookup p

/-- Modelled from the spec: allocation in the reference heap. A block of `size`
bytes with the given content is placed 16 bytes after the break (so its address
is never null), or the request fails with `NULL` and an unchanged heap. -/
def refAlloc (size : Nat) (bytes : List Nat) (w : RefWorld) : Ptr × RefWorld :=
  if w.brk + 16 + size > refCapacity then (NULL, w)
  else (w.brk + 16,
        { w with brk := w.brk + 16 + size
                 blocks := (w.brk + 16, bytes) :: w.blocks })

/-- Modelled from the spec: the platform default "allocate": `size` bytes of
indeterminate content. -/
def refMalloc (size : Nat) (w : RefWorld) : Ptr × RefWorld :=
  refAlloc size (List.replicate size refFill) w

/-- Modelled from the spec: the platform default "zero-allocate": allocates and
zero-initialises `count * size` bytes. -/
def refCalloc (count size : Nat) (w : RefWorld) : Ptr × RefWorld :=
  refAlloc (count * size) (List.replicate (count * size) 0) w

/-- Modelled from the spec: the platform default "free": releases the block at
`ptr`; freeing `NULL` does nothing. -/
def refFree (ptr : Ptr) (w : RefWorld) : RefWorld :=
  if ptr = NULL then w
  else { w with blocks := w.blocks.filter (fun b => b.1 != ptr) }

/-- Modelled from the spec: the platform default "reallocate": resizes/moves the
block at `ptr` to `size` bytes, keeping the common prefix of its content; with a
null `ptr` it allocates. A failure leaves the old block in place. -/
def refRealloc (ptr : Ptr) (size : Nat) (w : RefWorld) : Ptr × RefWorld :=
  if ptr = NULL then refMalloc size w
  else
    match refBlock w ptr with
    | none => (NULL, w)
    | some old =>
      let r := refAlloc size ((old ++ List.replicate size refFill).take size) w
      if r.1 = NULL then (NULL, w) else (r.1, refFree ptr r.2)

/-- Modelled from the spec: address of a custom allocate function that returns a
fixed sentinel non-null address for any size. -/
def SENTINEL_MALLOC : FnPtr := 4096

/-- Modelled from the spec: the sentinel address returned by `SENTINEL_MALLOC`. -/
def SENTINEL : Ptr := 48879

/-- Modelled from the spec: address of a custom reallocate function that always
fails (null result). -/
def FAILING_REALLOC : FnPtr := 8192

/-- Modelled from the spec: address of a custom zero-allocate function that
hands out one fixed arena address. -/
def ARENA_CALLOC : FnPtr := 12288

/-- Modelled from the spec: the address returned by `ARENA_CALLOC`. -/
def ARENA : Ptr := 51966

/-- Modelled from the spec: address of a custom free function that records the
pointer it was given. -/
def RECORDING_FREE : FnPtr := 16384

/-- A host callback of type `TinyObjLoader_Malloc` that unregisters everything
and fails. In C:
`void* f(size_t n) { tinyobj_set_memory_callbacks(NULL, NULL, NULL, NULL); return NULL; }`.
The setter is a public function (source line 14), so host code may call it from
anywhere, a callback included. -/
def REREGISTERING_MALLOC : FnPtr := 20480

/-- A host callback of type `TinyObjLoader_Malloc` that hands out the sentinel
only when a custom free is registered to take it back, and fails otherwise. In C:
`void* f(size_t n) { return g_tinyobjloader_free == NULL ? NULL : SENTINEL; }`.
The global is not `static` (source line 12), so host code may read it. -/
def GUARDED_MALLOC : FnPtr := 24576

/-- Modelled from the spec: the reference platform: the default allocator over
`RefWorld` and the host functions found at the addresses above. A call through
any other address fails (null result) and changes nothing. -/
def refPlatform : Platform RefWorld where
  malloc := refMalloc
  realloc := refRealloc
  calloc := refCalloc
  free := refFree
  call_malloc := fun fn _ m =>
    if fn = SENTINEL_MALLOC then (SENTINEL, m)
    else if fn = REREGISTERING_MALLOC then
      (NULL, (tinyobj_set_memory_callbacks NULL NULL NULL NULL
        { reg := m.reg, world := m.world, trace := [] }).store)
    else if fn = GUARDED_MALLOC then
      (if m.reg.g_tinyobjloader_free = NULL then NULL else SENTINEL, m)
    else (NULL, m)
  call_realloc := fun _ _ _ m => (NULL, m)
  call_calloc := fun fn _ _ m => if fn = ARENA_CALLOC then (ARENA, m) else (NULL, m)
  call_free := fun fn ptr m =>
    if fn = RECORDING_FREE then
      { m with world := { m.world with recorded := m.world.recorded ++ [ptr] } }
    else m

/-! ## The setter and the two paths of each wrapper -/

theorem set_reg_eq {W : Type} (m r c f : FnPtr) (s : State W) :
    (tinyobj_set_memory_callbacks m r c f s).reg = ⟨m, r, c, f⟩ := rfl

theorem set_world_eq {W : Type} (m r c f : FnPtr) (s : State W) :
    (tinyobj_set_memory_callbacks m r c f s).world = s.world := rfl

theorem set_trace_eq {W : Type} (m r c f : FnPtr) (s : State W) :
    (tinyobj_set_memory_callbacks m r c f s).trace = s.trace := rfl

theorem malloc_unset {W : Type} (P : Platform W) (size : Nat) (s : State W)
    (h : s.reg.g_tinyobjloader_malloc = NULL) :
    tinyobjloader_malloc P size s =
      ((P.malloc size s.world).1,
       { s with world := (P.malloc size s.world).2, trace := s.trace ++ [Call.malloc size] }) := by
  unfold tinyobjloader_malloc
  rw [if_pos h]

theorem realloc_unset {W : Type} (P : Platform W) (ptr : Ptr) (size : Nat) (s : State W)
    (h : s.reg.g_tinyobjloader_realloc = NULL) :
    tinyobjloader_realloc P ptr size s =
      ((P.realloc ptr size s.world).1,
       { s with world := (P.realloc ptr size s.world).2
                trace := s.trace ++ [Call.realloc ptr size] }) := by
  unfold tinyobjloader_realloc
  rw [if_pos h]

theorem calloc_unset {W : Type} (P : Platform W) (count size : Nat) (s : State W)
    (h : s.reg.g_tinyobjloader_calloc = NULL) :
    tinyobjloader_calloc P count size s =
      ((P.calloc count size s.world).1,
       { s with world := (P.calloc count size s.world).2
                trace := s.trace ++ [Call.calloc count size] }) := by
  unfold tinyobjloader_calloc
  rw [if_pos h]

theorem free_unset {W : Type} (P : Platform W) (ptr : Ptr) (s : State W)
    (h : s.reg.g_tinyobjloader_free = NULL) :
    tinyobjloader_free P ptr s =
      { s with world := P.free ptr s.world, trace := s.trace ++ [Call.free ptr] } := by
  unfold tinyobjloader_free
  rw [if_pos h]

theorem malloc_set {W : Type} (P : Platform W) (size : Nat) (s : State W)
    (h : s.reg.g_tinyobjloader_malloc ≠ NULL) :
    tinyobjloader_malloc P size s =
      ((P.call_malloc s.reg.g_tinyobjloader_malloc size s.store).1,
       { reg := (P.call_malloc s.reg.g_tinyobjloader_malloc size s.store).2.reg
         world := (P.call_malloc s.reg.g_tinyobjloader_malloc size s.store).2.world
         trace := s.trace ++ [Call.custom_malloc s.reg.g_tinyobjloader_malloc size] }) := by
  unfold tinyobjloader_malloc
  rw [if_neg h]

theorem realloc_set {W : Type} (P : Platform W) (ptr : Ptr) (size : Nat) (s : State W)
    (h : s.reg.g_tinyobjloader_realloc ≠ NULL) :
    tinyobjloader_realloc P ptr size s =
      ((P.call_realloc s.reg.g_tinyobjloader_realloc ptr size s.store).1,
       { reg := (P.call_realloc s.reg.g_tinyobjloader_realloc ptr size s.store).2.reg
         world := (P.call_realloc s.reg.g_tinyobjloader_realloc ptr size s.store).2.world
         trace := s.trace ++
           [Call.custom_realloc s.reg.g_tinyobjloader_realloc ptr size] }) := by
  unfold tinyobjloader_realloc
  rw [if_neg h]

theorem calloc_set {W : Type} (P : Platform W) (count size : Nat) (s : State W)
    (h : s.reg.g_tinyobjloader_calloc ≠ NULL) :
    tinyobjloader_calloc P count size s =
      ((P.call_calloc s.reg.g_tinyobjloader_calloc count size s.store).1,
       { reg := (P.call_calloc s.reg.g_tinyobjloader_calloc count size s.store).2.reg
         world := (P.call_calloc s.reg.g_tinyobjloader_calloc count size s.store).2.world
         trace := s.trace ++
           [Call.custom_calloc s.reg.g_tinyobjloader_calloc count size] }) := by
  unfold tinyobjloader_calloc
  rw [if_neg h]

theorem free_set {W : Type} (P : Platform W) (ptr : Ptr) (s : State W)
    (h : s.reg.g_tinyobjloader_free ≠ NULL) :
    tinyobjloader_free P ptr s =
      { reg := (P.call_free s.reg.g_tinyobjloader_free ptr s.store).reg
        world := (P.call_free s.reg.g_tinyobjloader_free ptr s.store).world
        trace := s.trace ++ [Call.custom_free s.reg.g_tinyobjloader_free ptr] } := by
  unfold tinyobjloader_free
  rw [if_neg h]

/-! ## Frame lemmas -/

theorem malloc_reg_unset {W : Type} (P : Platform W) (size : Nat) (s : State W)
    (h : s.reg.g_tinyobjloader_malloc = NULL) :
    (tinyobjloader_malloc P size s).2.reg = s.reg := by
  rw [malloc_unset P size s h]

theorem realloc_reg_unset {W : Type} (P : Platform W) (ptr : Ptr) (size : Nat) (s : State W)
    (h : s.reg.g_tinyobjloader_realloc = NULL) :
    (tinyobjloader_realloc P ptr size s).2.reg = s.reg := by
  rw [realloc_unset P ptr size s h]

theorem calloc_reg_unset {W : Type} (P : Platform W) (count size : Nat) (s : State W)
    (h : s.reg.g_tinyobjloader_calloc = NULL) :
    (tinyobjloader_calloc P count size s).2.reg = s.reg := by
  rw [calloc_unset P count size s h]

theorem free_reg_unset {W : Type} (P : Platform W) (ptr : Ptr) (s : State W)
    (h : s.reg.g_tinyobjloader_free = NULL) :
    (tinyobjloader_free P ptr s).reg = s.reg := by
  rw [free_unset P ptr s h]

theorem malloc_reg_set {W : Type} (P : Platform W) (size : Nat) (s : State W)
    (h : s.reg.g_tinyobjloader_malloc ≠ NULL) :
    (tinyobjloader_malloc P size s).2.reg =
      (P.call_malloc s.reg.g_tinyobjloader_malloc size s.store).2.reg := by
  rw [malloc_set P size s h]

theorem realloc_reg_set {W : Type} (P : Platform W) (ptr : Ptr) (size : Nat) (s : State W)
    (h : s.reg.g_tinyobjloader_realloc ≠ NULL) :
    (tinyobjloader_realloc P ptr size s).2.reg =
      (P.call_realloc s.reg.g_tinyobjloader_realloc ptr size s.store).2.reg := by
  rw [realloc_set P ptr size s h]

theorem calloc_reg_set {W : Type} (P : Platform W) (count size : Nat) (s : State W)
    (h : s.reg.g_tinyobjloader_calloc ≠ NULL) :
    (tinyobjloader_calloc P count size s).2.reg =
      (P.call_calloc s.reg.g_tinyobjloader_calloc count size s.store).2.reg := by
  rw [calloc_set P count size s h]

theorem free_reg_set {W : Type} (P : Platform W) (ptr : Ptr) (s : State W)
    (h : s.reg.g_tinyobjloader_free ≠ NULL) :
    (tinyobjloader_free P ptr s).reg =
      (P.call_free s.reg.g_tinyobjloader_free ptr s.store).reg := by
  rw [free_set P ptr s h]

theorem malloc_reg_keep {W : Type} (P : Platform W) (size : Nat) (s : State W)
    (hk : CalleesKeep P s.reg) : (tinyobjloader_malloc P size s).2.reg = s.reg := by
  by_cases h : s.reg.g_tinyobjloader_malloc = NULL
  · exact malloc_reg_unset P size s h
  · rw [malloc_reg_set P size s h]
    exact hk.1 h size s.world

theorem realloc_reg_keep {W : Type} (P : Platform W) (ptr : Ptr) (size : Nat) (s : State W)
    (hk : CalleesKeep P s.reg) : (tinyobjloader_realloc P ptr size s).2.reg = s.reg := by
  by_cases h : s.reg.g_tinyobjloader_realloc = NULL
  · exact realloc_reg_unset P ptr size s h
  · rw [realloc_reg_set P ptr size s h]
    exact hk.2.1 h ptr size s.world

theorem calloc_reg_keep {W : Type} (P : Platform W) (count size : Nat) (s : State W)
    (hk : CalleesKeep P s.reg) : (tinyobjloader_calloc P count size s).2.reg = s.reg := by
  by_cases h : s.reg.g_tinyobjloader_calloc = NULL
  · exact calloc_reg_unset P count size s h
  · rw [calloc_reg_set P count size s h]
    exact hk.2.2.1 h count size s.world

theorem free_reg_keep {W : Type} (P : Platform W) (ptr : Ptr) (s : State W)
    (hk : CalleesKeep P s.reg) : (tinyobjloader_free P ptr s).reg = s.reg := by
  by_cases h : s.reg.g_tinyobjloader_free = NULL
  · exact free_reg_unset P ptr s h
  · rw [free_reg_set P ptr s h]
    exact hk.2.2.2 h ptr s.world

theorem step_reg_keep {W : Type} (P : Platform W) (s : State W) (op : Op)
    (hk : CalleesKeep P s.reg) : (step P s op).reg = s.reg := by
  cases op
  · exact malloc_reg_keep P _ s hk
  · exact realloc_reg_keep P _ _ s hk
  · exact calloc_reg_keep P _ _ s hk
  · exact free_reg_keep P _ s hk

theorem run_reg_keep {W : Type} (P : Platform W) (ops : List Op) (s : State W)
    (hk : CalleesKeep P s.reg) : (run P ops s).reg = s.reg := by
  induction ops generalizing s with
  | nil => rfl
  | cons op ops ih =>
    have hstep : (step P s op).reg = s.reg := step_reg_keep P s op hk
    show (run P ops (step P s op)).reg = s.reg
    rw [ih (step P s op) (by rw [hstep]; exact hk), hstep]

theorem calleesKeep_unset {W : Type} (P : Platform W) :
    CalleesKeep P ⟨NULL, NULL, NULL, NULL⟩ :=
  ⟨fun h => absurd rfl h, fun h => absurd rfl h, fun h => absurd rfl h,
   fun h => absurd rfl h⟩

theorem run_reg_initial {W : Type} (P : Platform W) (ops : List Op) (w : W) :
    (run P ops (initial w)).reg = ⟨NULL, NULL, NULL, NULL⟩ :=
  run_reg_keep P ops (initial w) (calleesKeep_unset P)

theorem run_set_reg_keep {W : Type} (P : Platform W) (ops : List Op) (m r c f : FnPtr)
    (s : State W) (hk : CalleesKeep P ⟨m, r, c, f⟩) :
    (run P ops (tinyobj_set_memory_callbacks m r c f s)).reg = ⟨m, r, c, f⟩ :=
  run_reg_keep P ops (tinyobj_set_memory_callbacks m r c f s) hk

/-! ## Which function a wrapper calls -/

theorem mallocDefault_of_unset {W : Type} (P : Platform W) (t : State W)
    (h : t.reg.g_tinyobjloader_malloc = NULL) : MallocDefault P t := by
  intro size
  rw [malloc_unset P size t h]
  exact ⟨rfl, rfl, rfl⟩

theorem reallocDefault_of_unset {W : Type} (P : Platform W) (t : State W)
    (h : t.reg.g_tinyobjloader_realloc = NULL) : ReallocDefault P t := by
  intro ptr size
  rw [realloc_unset P ptr size t h]
  exact ⟨rfl, rfl, rfl⟩

theorem callocDefault_of_unset {W : Type} (P : Platform W) (t : State W)
    (h : t.reg.g_tinyobjloader_calloc = NULL) : CallocDefault P t := by
  intro count size
  rw [calloc_unset P count size t h]
  exact ⟨rfl, rfl, rfl⟩

theorem freeDefault_of_unset {W : Type} (P : Platform W) (t : State W)
    (h : t.reg.g_tinyobjloader_free = NULL) : FreeDefault P t := by
  intro ptr
  rw [free_unset P ptr t h]
  exact ⟨rfl, rfl⟩

theorem mallocCustom_of_set {W : Type} (P : Platform W) (f : FnPtr) (t : State W)
    (h : t.reg.g_tinyobjloader_malloc = f) (hf : f ≠ NULL) : MallocCustom P f t := by
  subst h
  intro size
  rw [malloc_set P size t hf]
  exact ⟨rfl, rfl, rfl⟩

theorem reallocCustom_of_set {W : Type} (P : Platform W) (f : FnPtr) (t : State W)
    (h : t.reg.g_tinyobjloader_realloc = f) (hf : f ≠ NULL) : ReallocCustom P f t := by
  subst h
  intro ptr size
  rw [realloc_set P ptr size t hf]
  exact ⟨rfl, rfl, rfl⟩

theorem callocCustom_of_set {W : Type} (P : Platform W) (f : FnPtr) (t : State W)
    (h : t.reg.g_tinyobjloader_calloc = f) (hf : f ≠ NULL) : CallocCustom P f t := by
  subst h
  intro count size
  rw [calloc_set P count size t hf]
  exact ⟨rfl, rfl, rfl⟩

theorem freeCustom_of_set {W : Type} (P : Platform W) (f : FnPtr) (t : State W)
    (h : t.reg.g_tinyobjloader_free = f) (hf : f ≠ NULL) : FreeCustom P f t := by
  subst h
  intro ptr
  rw [free_set P ptr t hf]
  exact ⟨rfl, rfl⟩

theorem onlyMallocCustom_of_reg {W : Type} (P : Platform W) (f : FnPtr) (hf : f ≠ NULL)
    (t : State W) (h : t.reg = ⟨f, NULL, NULL, NULL⟩) : OnlyMallocCustom P f t :=
  ⟨mallocCustom_of_set P f t (by rw [h]) hf, reallocDefault_of_unset P t (by rw [h]),
   callocDefault_of_unset P t (by rw [h]), freeDefault_of_unset P t (by rw [h])⟩

theorem onlyReallocCustom_of_reg {W : Type} (P : Platform W) (f : FnPtr) (hf : f ≠ NULL)
    (t : State W) (h : t.reg = ⟨NULL, f, NULL, NULL⟩) : OnlyReallocCustom P f t :=
  ⟨mallocDefault_of_unset P t (by rw [h]), reallocCustom_of_set P f t (by rw [h]) hf,
   callocDefault_of_unset P t (by rw [h]), freeDefault_of_unset P t (by rw [h])⟩

theorem onlyCallocCustom_of_reg {W : Type} (P : Platform W) (f : FnPtr) (hf : f ≠ NULL)
    (t : State W) (h : t.reg = ⟨NULL, NULL, f, NULL⟩) : OnlyCallocCustom P f t :=
  ⟨mallocDefault_of_unset P t (by rw [h]), reallocDefault_of_unset P t (by rw [h]),
   callocCustom_of_set P f t (by rw [h]) hf, freeDefault_of_unset P t (by rw [h])⟩

theorem onlyFreeCustom_of_reg {W : Type} (P : Platform W) (f : FnPtr) (hf : f ≠ NULL)
    (t : State W) (h : t.reg = ⟨NULL, NULL, NULL, f⟩) : OnlyFreeCustom P f t :=
  ⟨mallocDefault_of_unset P t (by rw [h]), reallocDefault_of_unset P t (by rw [h]),
   callocDefault_of_unset P t (by rw [h]), freeCustom_of_set P f t (by rw [h]) hf⟩

theorem drop_length_append_singleton (tr : List Call) (e : Call) :
    (tr ++ [e]).drop tr.length = [e] := by
  simp

theorem callsDuring_malloc {W : Type} (P : Platform W) (size : Nat) (s : State W) :
    callsDuring s (tinyobjloader_malloc P size s).2 =
      [if s.reg.g_tinyobjloader_malloc = NULL then Call.malloc size
       else Call.custom_malloc s.reg.g_tinyobjloader_malloc size] := by
  unfold callsDuring
  by_cases h : s.reg.g_tinyobjloader_malloc = NULL
  · rw [malloc_unset P size s h, if_pos h]; exact drop_length_append_singleton _ _
  · rw [malloc_set P size s h, if_neg h]; exact drop_length_append_singleton _ _

theorem callsDuring_realloc {W : Type} (P : Platform W) (ptr : Ptr) (size : Nat) (s : State W) :
    callsDuring s (tinyobjloader_realloc P ptr size s).2 =
      [if s.reg.g_tinyobjloader_realloc = NULL then Call.realloc ptr size
       else Call.custom_realloc s.reg.g_tinyobjloader_realloc ptr size] := by
  unfold callsDuring
  by_cases h : s.reg.g_tinyobjloader_realloc = NULL
  · rw [realloc_unset P ptr size s h, if_pos h]; exact drop_length_append_singleton _ _
  · rw [realloc_set P ptr size s h, if_neg h]; exact drop_length_append_singleton _ _

theorem callsDuring_calloc {W : Type} (P : Platform W) (count size : Nat) (s : State W) :
    callsDuring s (tinyobjloader_calloc P count size s).2 =
      [if s.reg.g_tinyobjloader_calloc = NULL then Call.calloc count size
       else Call.custom_calloc s.reg.g_tinyobjloader_calloc count size] := by
  unfold callsDuring
  by_cases h : s.reg.g_tinyobjloader_calloc = NULL
  · rw [calloc_unset P count size s h, if_pos h]; exact drop_length_append_singleton _ _
  · rw [calloc_set P count size s h, if_neg h]; exact drop_length_append_singleton _ _

theorem callsDuring_free {W : Type} (P : Platform W) (ptr : Ptr) (s : State W) :
    callsDuring s (tinyobjloader_free P ptr s) =
      [if s.reg.g_tinyobjloader_free = NULL then Call.free ptr
       else Call.custom_free s.reg.g_tinyobjloader_free ptr] := by
  unfold callsDuring
  by_cases h : s.reg.g_tinyobjloader_free = NULL
  · rw [free_unset P ptr s h, if_pos h]; exact drop_length_append_singleton _ _
  · rw [free_set P ptr s h, if_neg h]; exact drop_length_append_singleton _ _

theorem malloc_eq_serviced {W : Type} (P : Platform W) (size : Nat) (s : State W) :
    (tinyobjloader_malloc P size s).1 = (serviced_malloc P s size).1 ∧
    (tinyobjloader_malloc P size s).2.world = (serviced_malloc P s size).2 := by
  unfold tinyobjloader_malloc serviced_malloc
  split <;> exact ⟨rfl, rfl⟩

theorem realloc_eq_serviced {W : Type} (P : Platform W) (ptr : Ptr) (size : Nat) (s : State W) :
    (tinyobjloader_realloc P ptr size s).1 = (serviced_realloc P s ptr size).1 ∧
    (tinyobjloader_realloc P ptr size s).2.world = (serviced_realloc P s ptr size).2 := by
  unfold tinyobjloader_realloc serviced_realloc
  split <;> exact ⟨rfl, rfl⟩

theorem calloc_eq_serviced {W : Type} (P : Platform W) (count size : Nat) (s : State W) :
    (tinyobjloader_calloc P count size s).1 = (serviced_calloc P s count size).1 ∧
    (tinyobjloader_calloc P count size s).2.world = (serviced_calloc P s count size).2 := by
  unfold tinyobjloader_calloc serviced_calloc
  split <;> exact ⟨rfl, rfl⟩

theorem refCalloc_zeroed (count size : Nat) (w : RefWorld)
    (h : (refCalloc count size w).1 ≠ NULL) :
    refBlock (refCalloc count size w).2 (refCalloc count size w).1 =
      some (List.replicate (count * size) 0) := by
  unfold refCalloc refAlloc at h ⊢
  by_cases hc : w.brk + 16 + count * size > refCapacity
  · rw [if_pos hc] at h
    exact absurd rfl h
  · rw [if_neg hc]
    simp [refBlock, List.lookup]

theorem refPlatform_keeps_benign :
    CalleesKeep refPlatform
      ⟨SENTINEL_MALLOC, FAILING_REALLOC, ARENA_CALLOC, RECORDING_FREE⟩ :=
  ⟨fun _ _ _ => rfl, fun _ _ _ _ => rfl, fun _ _ _ _ => rfl, fun _ _ _ => rfl⟩

/-- C1: for each of the four wrappers, in every state in which the wrapper's own
slot is `NULL` and for all arguments, the returned pointer and the resulting
world are those of the platform default function of the same kind called on the
same arguments in the same order, the slots are left as they were, and the
trace grows by exactly one call, the call of that default function. -/
theorem unset_slot_is_default_call {W : Type} (P : Platform W) (s : State W) :
    (s.reg.g_tinyobjloader_malloc = NULL → ∀ size : Nat,
      (tinyobjloader_malloc P size s).1 = (P.malloc size s.world).1 ∧
      (tinyobjloader_malloc P size s).2.world = (P.malloc size s.world).2 ∧
      (tinyobjloader_malloc P size s).2.reg = s.reg ∧
      (tinyobjloader_malloc P size s).2.trace = s.trace ++ [Call.malloc size]) ∧
    (s.reg.g_tinyobjloader_realloc = NULL → ∀ (ptr : Ptr) (size : Nat),
      (tinyobjloader_realloc P ptr size s).1 = (P.realloc ptr size s.world).1 ∧
      (tinyobjloader_realloc P ptr size s).2.world = (P.realloc ptr size s.world).2 ∧
      (tinyobjloader_realloc P ptr size s).2.reg = s.reg ∧
      (tinyobjloader_realloc P ptr size s).2.trace = s.trace ++ [Call.realloc ptr size]) ∧
    (s.reg.g_tinyobjloader_calloc = NULL → ∀ count size : Nat,
      (tinyobjloader_calloc P count size s).1 = (P.calloc count size s.world).1 ∧
      (tinyobjloader_calloc P count size s).2.world = (P.calloc count size s.world).2 ∧
      (tinyobjloader_calloc P count size s).2.reg = s.reg ∧
      (tinyobjloader_calloc P count size s).2.trace = s.trace ++ [Call.calloc count size]) ∧
    (s.reg.g_tinyobjloader_free = NULL → ∀ ptr : Ptr,
      (tinyobjloader_free P ptr s).world = P.free ptr s.world ∧
      (tinyobjloader_free P ptr s).reg = s.reg ∧
      (tinyobjloader_free P ptr s).trace = s.trace ++ [Call.free ptr]) := by
  refine ⟨fun h size => ?_, fun h ptr size => ?_, fun h count size => ?_, fun h ptr => ?_⟩
  · rw [malloc_unset P size s h]; exact ⟨rfl, rfl, rfl, rfl⟩
  · rw [realloc_unset P ptr size s h]; exact ⟨rfl, rfl, rfl, rfl⟩
  · rw [calloc_unset P count size s h]; exact ⟨rfl, rfl, rfl, rfl⟩
  · rw [free_unset P ptr s h]; exact ⟨rfl, rfl, rfl⟩

/-- C1 at a concrete input: on the reference platform, with only the free slot
registered, the three other wrappers are the default functions. -/
theorem unset_slot_is_default_call_witness :
    (tinyobjloader_malloc refPlatform 8
        (tinyobj_set_memory_callbacks NULL NULL NULL RECORDING_FREE (initial refEmpty))).1 = 16 ∧
    (tinyobjloader_malloc refPlatform 8
        (tinyobj_set_memory_callbacks NULL NULL NULL RECORDING_FREE (initial refEmpty))).2.trace
      = [Call.malloc 8] ∧
    (tinyobjloader_calloc refPlatform 2 3
        (tinyobj_set_memory_callbacks NULL NULL NULL RECORDING_FREE (initial refEmpty))).2.trace
      = [Call.calloc 2 3] := by
  have h := unset_slot_is_default_call refPlatform
    (tinyobj_set_memory_callbacks NULL NULL NULL RECORDING_FREE (initial refEmpty))
  have hm := h.1 rfl 8
  have hc := h.2.2.1 rfl 2 3
  exact ⟨hm.1.trans rfl, hm.2.2.2.trans rfl, hc.2.2.2.trans rfl⟩

/-- C4: `tinyobj_set_memory_callbacks m r c f` is total (it checks nothing) and,
from every prior state and for all argument values, null or not, leaves the
record equal to `(m, r, c, f)`, each argument in the slot of its own kind, with
the world and the trace untouched; afterwards each wrapper takes the default
path exactly when the argument of its own kind was `NULL`, whatever the other
three arguments were. -/
theorem set_stores_each_argument_in_its_slot {W : Type} (P : Platform W)
    (m r c f : FnPtr) (s : State W) :
    (tinyobj_set_memory_callbacks m r c f s).reg =
      { g_tinyobjloader_malloc := m, g_tinyobjloader_realloc := r,
        g_tinyobjloader_calloc := c, g_tinyobjloader_free := f } ∧
    (tinyobj_set_memory_callbacks m r c f s).world = s.world ∧
    (tinyobj_set_memory_callbacks m r c f s).trace = s.trace ∧
    (∀ size : Nat,
      (tinyobjloader_malloc P size (tinyobj_set_memory_callbacks m r c f s)).2.trace =
        s.trace ++ [if m = NULL then Call.malloc size else Call.custom_malloc m size]) ∧
    (∀ (ptr : Ptr) (size : Nat),
      (tinyobjloader_realloc P ptr size (tinyobj_set_memory_callbacks m r c f s)).2.trace =
        s.trace ++ [if r = NULL then Call.realloc ptr size else Call.custom_realloc r ptr size]) ∧
    (∀ count size : Nat,
      (tinyobjloader_calloc P count size (tinyobj_set_memory_callbacks m r c f s)).2.trace =
        s.trace ++
          [if c = NULL then Call.calloc count size else Call.custom_calloc c count size]) ∧
    (∀ ptr : Ptr,
      (tinyobjloader_free P ptr (tinyobj_set_memory_callbacks m r c f s)).trace =
        s.trace ++ [if f = NULL then Call.free ptr else Call.custom_free f ptr]) := by
  refine ⟨rfl, rfl, rfl, fun size => ?_, fun ptr size => ?_, fun count size => ?_,
    fun ptr => ?_⟩
  · by_cases h : m = NULL
    · rw [malloc_unset P size _ h, if_pos h]; rfl
    · rw [malloc_set P size _ h, if_neg h]; rfl
  · by_cases h : r = NULL
    · rw [realloc_unset P ptr size _ h, if_pos h]; rfl
    · rw [realloc_set P ptr size _ h, if_neg h]; rfl
  · by_cases h : c = NULL
    · rw [calloc_unset P count size _ h, if_pos h]; rfl
    · rw [calloc_set P count size _ h, if_neg h]; rfl
  · by_cases h : f = NULL
    · rw [free_unset P ptr _ h, if_pos h]; rfl
    · rw [free_set P ptr _ h, if_neg h]; rfl

/-- C2: for every operation kind and every non-null custom function `f`, in
every state left by `tinyobj_set_memory_callbacks` with `f` in the slot of that
kind and `NULL` in the three others (the prior state is arbitrary, so this is
every state holding that registration), the wrapper of that kind invokes `f`
with the wrapper's arguments and returns exactly its result, and each of the
three other wrappers is a call of the platform default of its own kind. The
same holds after any sequence of wrapper calls, provided `f` leaves the
registration alone when it is called. -/
theorem registered_kind_is_custom_others_default {W : Type} (P : Platform W) (f : FnPtr)
    (hf : f ≠ NULL) (s : State W) (ops : List Op) :
    (OnlyMallocCustom P f (tinyobj_set_memory_callbacks f NULL NULL NULL s) ∧
      (CalleesKeep P ⟨f, NULL, NULL, NULL⟩ →
        OnlyMallocCustom P f (run P ops (tinyobj_set_memory_callbacks f NULL NULL NULL s)))) ∧
    (OnlyReallocCustom P f (tinyobj_set_memory_callbacks NULL f NULL NULL s) ∧
      (CalleesKeep P ⟨NULL, f, NULL, NULL⟩ →
        OnlyReallocCustom P f (run P ops (tinyobj_set_memory_callbacks NULL f NULL NULL s)))) ∧
    (OnlyCallocCustom P f (tinyobj_set_memory_callbacks NULL NULL f NULL s) ∧
      (CalleesKeep P ⟨NULL, NULL, f, NULL⟩ →
        OnlyCallocCustom P f (run P ops (tinyobj_set_memory_callbacks NULL NULL f NULL s)))) ∧
    (OnlyFreeCustom P f (tinyobj_set_memory_callbacks NULL NULL NULL f s) ∧
      (CalleesKeep P ⟨NULL, NULL, NULL, f⟩ →
        OnlyFreeCustom P f (run P ops (tinyobj_set_memory_callbacks NULL NULL NULL f s)))) :=
  ⟨⟨onlyMallocCustom_of_reg P f hf _ rfl,
     fun hk => onlyMallocCustom_of_reg P f hf _ (run_set_reg_keep P ops _ _ _ _ s hk)⟩,
   ⟨onlyReallocCustom_of_reg P f hf _ rfl,
     fun hk => onlyReallocCustom_of_reg P f hf _ (run_set_reg_keep P ops _ _ _ _ s hk)⟩,
   ⟨onlyCallocCustom_of_reg P f hf _ rfl,
     fun hk => onlyCallocCustom_of_reg P f hf _ (run_set_reg_keep P ops _ _ _ _ s hk)⟩,
   ⟨onlyFreeCustom_of_reg P f hf _ rfl,
     fun hk => onlyFreeCustom_of_reg P f hf _ (run_set_reg_keep P ops _ _ _ _ s hk)⟩⟩

/-- C2 at a concrete input: on the reference platform, after registering only
the sentinel allocate function, allocate returns the sentinel through the
custom function; and after two more wrapper calls it still does, while
zero-allocate is the default `calloc`. -/
theorem registered_kind_is_custom_others_default_witness :
    SENTINEL_MALLOC ≠ NULL ∧
    (tinyobjloader_malloc refPlatform 64
      (tinyobj_set_memory_callbacks SENTINEL_MALLOC NULL NULL NULL (initial refEmpty))).1
      = SENTINEL ∧
    (tinyobjloader_malloc refPlatform 64
      (run refPlatform [Op.calloc 2 2, Op.free 16]
        (tinyobj_set_memory_callbacks SENTINEL_MALLOC NULL NULL NULL (initial refEmpty)))).1
      = SENTINEL ∧
    (tinyobjloader_malloc refPlatform 64
      (run refPlatform [Op.calloc 2 2, Op.free 16]
        (tinyobj_set_memory_callbacks SENTINEL_MALLOC NULL NULL NULL (initial refEmpty)))).2.trace
      = [Call.calloc 2 2, Call.free 16, Call.custom_malloc SENTINEL_MALLOC 64] ∧
    (tinyobjloader_calloc refPlatform 1 3
      (run refPlatform [Op.calloc 2 2, Op.free 16]
        (tinyobj_set_memory_callbacks SENTINEL_MALLOC NULL NULL NULL (initial refEmpty)))).2.trace
      = [Call.calloc 2 2, Call.free 16, Call.calloc 1 3] := by
  have h := registered_kind_is_custom_others_default refPlatform SENTINEL_MALLOC (by decide)
    (initial refEmpty) [Op.calloc 2 2, Op.free 16]
  have hk : CalleesKeep refPlatform ⟨SENTINEL_MALLOC, NULL, NULL, NULL⟩ :=
    ⟨fun _ _ _ => rfl, fun h => absurd rfl h, fun h => absurd rfl h, fun h => absurd rfl h⟩
  exact ⟨by decide, (h.1.1.1 64).1.trans rfl, ((h.1.2 hk).1 64).1.trans rfl,
    ((h.1.2 hk).1 64).2.2.trans rfl, ((h.1.2 hk).2.2.1 1 3).2.2.trans rfl⟩

/-- C3: re-registration overwrites and never merges. For any two argument
tuples, the state after registering the first and then the second is the state
after registering the second alone. In particular, whatever a slot held after
the first call, passing `NULL` for it in the second call leaves it `NULL`, and
its wrapper is then a call of the platform default. -/
theorem reregistration_overwrites {W : Type} (P : Platform W)
    (a1 b1 c1 d1 a2 b2 c2 d2 : FnPtr) (s : State W) :
    tinyobj_set_memory_callbacks a2 b2 c2 d2 (tinyobj_set_memory_callbacks a1 b1 c1 d1 s) =
      tinyobj_set_memory_callbacks a2 b2 c2 d2 s ∧
    ((tinyobj_set_memory_callbacks NULL b2 c2 d2
        (tinyobj_set_memory_callbacks a1 b1 c1 d1 s)).reg.g_tinyobjloader_malloc = NULL ∧
      MallocDefault P (tinyobj_set_memory_callbacks NULL b2 c2 d2
        (tinyobj_set_memory_callbacks a1 b1 c1 d1 s))) ∧
    ((tinyobj_set_memory_callbacks a2 NULL c2 d2
        (tinyobj_set_memory_callbacks a1 b1 c1 d1 s)).reg.g_tinyobjloader_realloc = NULL ∧
      ReallocDefault P (tinyobj_set_memory_callbacks a2 NULL c2 d2
        (tinyobj_set_memory_callbacks a1 b1 c1 d1 s))) ∧
    ((tinyobj_set_memory_callbacks a2 b2 NULL d2
        (tinyobj_set_memory_callbacks a1 b1 c1 d1 s)).reg.g_tinyobjloader_calloc = NULL ∧
      CallocDefault P (tinyobj_set_memory_callbacks a2 b2 NULL d2
        (tinyobj_set_memory_callbacks a1 b1 c1 d1 s))) ∧
    ((tinyobj_set_memory_callbacks a2 b2 c2 NULL
        (tinyobj_set_memory_callbacks a1 b1 c1 d1 s)).reg.g_tinyobjloader_free = NULL ∧
      FreeDefault P (tinyobj_set_memory_callbacks a2 b2 c2 NULL
        (tinyobj_set_memory_callbacks a1 b1 c1 d1 s))) :=
  ⟨rfl,
   ⟨rfl, mallocDefault_of_unset P _ rfl⟩,
   ⟨rfl, reallocDefault_of_unset P _ rfl⟩,
   ⟨rfl, callocDefault_of_unset P _ rfl⟩,
   ⟨rfl, freeDefault_of_unset P _ rfl⟩⟩

/-- C5: the shim adds no error handling. For each of the three value-returning
wrappers, in every state and for all arguments, the wrapper returns exactly what
the function servicing the call returned: `NULL` when that function returned
`NULL`, and the same pointer `p` when it returned a non-null `p`. The world after
the call is the one that function left, and the wrapper made exactly one call,
the call of that function: no retry and no other allocator. -/
theorem failure_is_passed_through {W : Type} (P : Platform W) (s : State W) :
    (∀ size : Nat,
      ((serviced_malloc P s size).1 = NULL → (tinyobjloader_malloc P size s).1 = NULL) ∧
      (∀ p : Ptr, p ≠ NULL → (serviced_malloc P s size).1 = p →
        (tinyobjloader_malloc P size s).1 = p) ∧
      (tinyobjloader_malloc P size s).2.world = (serviced_malloc P s size).2 ∧
      callsDuring s (tinyobjloader_malloc P size s).2 =
        [if s.reg.g_tinyobjloader_malloc = NULL then Call.malloc size
         else Call.custom_malloc s.reg.g_tinyobjloader_malloc size]) ∧
    (∀ (ptr : Ptr) (size : Nat),
      ((serviced_realloc P s ptr size).1 = NULL →
        (tinyobjloader_realloc P ptr size s).1 = NULL) ∧
      (∀ p : Ptr, p ≠ NULL → (serviced_realloc P s ptr size).1 = p →
        (tinyobjloader_realloc P ptr size s).1 = p) ∧
      (tinyobjloader_realloc P ptr size s).2.world = (serviced_realloc P s ptr size).2 ∧
      callsDuring s (tinyobjloader_realloc P ptr size s).2 =
        [if s.reg.g_tinyobjloader_realloc = NULL then Call.realloc ptr size
         else Call.custom_realloc s.reg.g_tinyobjloader_realloc ptr size]) ∧
    (∀ count size : Nat,
      ((serviced_calloc P s count size).1 = NULL →
        (tinyobjloader_calloc P count size s).1 = NULL) ∧
      (∀ p : Ptr, p ≠ NULL → (serviced_calloc P s count size).1 = p →
        (tinyobjloader_calloc P count size s).1 = p) ∧
      (tinyobjloader_calloc P count size s).2.world = (serviced_calloc P s count size).2 ∧
      callsDuring s (tinyobjloader_calloc P count size s).2 =
        [if s.reg.g_tinyobjloader_calloc = NULL then Call.calloc count size
         else Call.custom_calloc s.reg.g_tinyobjloader_calloc count size]) := by
  refine ⟨fun size => ⟨fun h => ?_, fun p _ h => ?_, ?_, ?_⟩,
    fun ptr size => ⟨fun h => ?_, fun p _ h => ?_, ?_, ?_⟩,
    fun count size => ⟨fun h => ?_, fun p _ h => ?_, ?_, ?_⟩⟩
  · rw [(malloc_eq_serviced P size s).1, h]
  · rw [(malloc_eq_serviced P size s).1, h]
  · exact (malloc_eq_serviced P size s).2
  · exact callsDuring_malloc P size s
  · rw [(realloc_eq_serviced P ptr size s).1, h]
  · rw [(realloc_eq_serviced P ptr size s).1, h]
  · exact (realloc_eq_serviced P ptr size s).2
  · exact callsDuring_realloc P ptr size s
  · rw [(calloc_eq_serviced P count size s).1, h]
  · rw [(calloc_eq_serviced P count size s).1, h]
  · exact (calloc_eq_serviced P count size s).2
  · exact callsDuring_calloc P count size s

/-- C5 at concrete inputs on the reference platform: a default `malloc` that
fails on an oversized request, a failing custom reallocate function, and a
custom zero-allocate function that succeeds. -/
theorem failure_is_passed_through_witness :
    (tinyobjloader_malloc refPlatform 70000 (initial refEmpty)).1 = NULL ∧
    (tinyobjloader_realloc refPlatform 16 32
      (tinyobj_set_memory_callbacks NULL FAILING_REALLOC NULL NULL (initial refEmpty))).1
      = NULL ∧
    (tinyobjloader_calloc refPlatform 2 8
      (tinyobj_set_memory_callbacks NULL NULL ARENA_CALLOC NULL (initial refEmpty))).1
      = ARENA := by
  refine ⟨?_, ?_, ?_⟩
  · exact ((failure_is_passed_through refPlatform (initial refEmpty)).1 70000).1 (by decide)
  · exact ((failure_is_passed_through refPlatform
      (tinyobj_set_memory_callbacks NULL FAILING_REALLOC NULL NULL (initial refEmpty))).2.1
        16 32).1 (by decide)
  · exact ((failure_is_passed_through refPlatform
      (tinyobj_set_memory_callbacks NULL NULL ARENA_CALLOC NULL (initial refEmpty))).2.2
        2 8).2.1 ARENA (by decide) (by decide)

/-- C6: with a custom allocate function `f` registered that returns one fixed
non-null sentinel address for every size, `tinyobjloader_malloc size` returns
the sentinel for every size; during the call the custom function is invoked
exactly once, with that size, and the platform default `malloc` is not invoked. -/
theorem sentinel_malloc_is_returned {W : Type} (P : Platform W) (f : FnPtr) (sentinel : Ptr)
    (hf : f ≠ NULL) (hs : sentinel ≠ NULL)
    (hfix : ∀ (size : Nat) (m : Store W), (P.call_malloc f size m).1 = sentinel)
    (r c d : FnPtr) (s : State W) (size : Nat) :
    (tinyobjloader_malloc P size (tinyobj_set_memory_callbacks f r c d s)).1 = sentinel ∧
    (tinyobjloader_malloc P size (tinyobj_set_memory_callbacks f r c d s)).1 ≠ NULL ∧
    callsDuring (tinyobj_set_memory_callbacks f r c d s)
      (tinyobjloader_malloc P size (tinyobj_set_memory_callbacks f r c d s)).2 =
        [Call.custom_malloc f size] ∧
    customCalls (callsDuring (tinyobj_set_memory_callbacks f r c d s)
      (tinyobjloader_malloc P size (tinyobj_set_memory_callbacks f r c d s)).2) = 1 ∧
    defaultCalls (callsDuring (tinyobj_set_memory_callbacks f r c d s)
      (tinyobjloader_malloc P size (tinyobj_set_memory_callbacks f r c d s)).2) = 0 := by
  have hcalls : callsDuring (tinyobj_set_memory_callbacks f r c d s)
      (tinyobjloader_malloc P size (tinyobj_set_memory_callbacks f r c d s)).2 =
        [Call.custom_malloc f size] := by
    rw [callsDuring_malloc]
    exact congrArg (fun e => [e]) (if_neg hf)
  have hres : (tinyobjloader_malloc P size (tinyobj_set_memory_callbacks f r c d s)).1 =
      sentinel := by
    rw [malloc_set P size _ hf]
    exact hfix size _
  refine ⟨hres, ?_, hcalls, ?_, ?_⟩
  · rw [hres]; exact hs
  · rw [hcalls]; rfl
  · rw [hcalls]; rfl

/-- C6 at the input of the scenario: size 64 on the reference platform. -/
theorem sentinel_malloc_is_returned_witness :
    (tinyobjloader_malloc refPlatform 64
      (tinyobj_set_memory_callbacks SENTINEL_MALLOC NULL NULL NULL (initial refEmpty))).1
      = SENTINEL ∧
    (tinyobjloader_malloc refPlatform 64
      (tinyobj_set_memory_callbacks SENTINEL_MALLOC NULL NULL NULL (initial refEmpty))).2.trace
      = [Call.custom_malloc SENTINEL_MALLOC 64] ∧
    defaultCalls (tinyobjloader_malloc refPlatform 64
      (tinyobj_set_memory_callbacks SENTINEL_MALLOC NULL NULL NULL
        (initial refEmpty))).2.trace = 0 := by
  have h := sentinel_malloc_is_returned refPlatform SENTINEL_MALLOC SENTINEL (by decide)
    (by decide) (fun _ _ => rfl) NULL NULL NULL (initial refEmpty) 64
  exact ⟨h.1, h.2.2.1, h.2.2.2.2⟩

/-- C7: with a custom free function `f` registered, for every pointer `p`, null
or not, `tinyobjloader_free p` invokes the custom function exactly once, with
argument `p`, and does not invoke the platform default `free`: the world after
the call is the one `f` left when called on `p`. So if `f` records its argument,
what it has recorded after the call is exactly `p`. -/
theorem custom_free_receives_pointer {W : Type} (P : Platform W) (f : FnPtr) (hf : f ≠ NULL)
    (m r c : FnPtr) (s : State W) (p : Ptr) :
    (tinyobjloader_free P p (tinyobj_set_memory_callbacks m r c f s)).world =
      (P.call_free f p (tinyobj_set_memory_callbacks m r c f s).store).world ∧
    callsDuring (tinyobj_set_memory_callbacks m r c f s)
      (tinyobjloader_free P p (tinyobj_set_memory_callbacks m r c f s)) =
        [Call.custom_free f p] ∧
    customCalls (callsDuring (tinyobj_set_memory_callbacks m r c f s)
      (tinyobjloader_free P p (tinyobj_set_memory_callbacks m r c f s))) = 1 ∧
    defaultCalls (callsDuring (tinyobj_set_memory_callbacks m r c f s)
      (tinyobjloader_free P p (tinyobj_set_memory_callbacks m r c f s))) = 0 ∧
    (∀ recorded : W → List Ptr,
      (∀ (q : Ptr) (st : Store W),
        recorded (P.call_free f q st).world = recorded st.world ++ [q]) →
      recorded (tinyobjloader_free P p (tinyobj_set_memory_callbacks m r c f s)).world =
        recorded s.world ++ [p]) := by
  have hcalls : callsDuring (tinyobj_set_memory_callbacks m r c f s)
      (tinyobjloader_free P p (tinyobj_set_memory_callbacks m r c f s)) =
        [Call.custom_free f p] := by
    rw [callsDuring_free]
    exact congrArg (fun e => [e]) (if_neg hf)
  have hworld : (tinyobjloader_free P p (tinyobj_set_memory_callbacks m r c f s)).world =
      (P.call_free f p (tinyobj_set_memory_callbacks m r c f s).store).world := by
    rw [free_set P p _ hf]
    rfl
  refine ⟨hworld, hcalls, ?_, ?_, fun recorded hrec => ?_⟩
  · rw [hcalls]; rfl
  · rw [hcalls]; rfl
  · rw [hworld, hrec]
    rfl

/-- C7 at concrete inputs on the reference platform: the recording free function
is given a null pointer and then the pointer 4660, and has recorded both. -/
theorem custom_free_receives_pointer_witness :
    RECORDING_FREE ≠ NULL ∧
    (tinyobjloader_free refPlatform NULL
      (tinyobj_set_memory_callbacks NULL NULL NULL RECORDING_FREE
        (initial refEmpty))).world.recorded = [NULL] ∧
    (tinyobjloader_free refPlatform 4660
      (tinyobj_set_memory_callbacks NULL NULL NULL RECORDING_FREE
        (initial refEmpty))).world.recorded = [4660] ∧
    (tinyobjloader_free refPlatform 4660
      (tinyobj_set_memory_callbacks NULL NULL NULL RECORDING_FREE
        (initial refEmpty))).trace = [Call.custom_free RECORDING_FREE 4660] := by
  have h0 := custom_free_receives_pointer refPlatform RECORDING_FREE (by decide)
    NULL NULL NULL (initial refEmpty) NULL
  have h1 := custom_free_receives_pointer refPlatform RECORDING_FREE (by decide)
    NULL NULL NULL (initial refEmpty) 4660
  exact ⟨by decide, h0.2.2.2.2 RefWorld.recorded (fun _ _ => rfl),
    h1.2.2.2.2 RefWorld.recorded (fun _ _ => rfl), h1.2.1⟩

/-- C8: in the initial state all four slots are `NULL`, and as long as
`tinyobj_set_memory_callbacks` has not been called (after any sequence of
wrapper calls) every wrapper is a call of the platform default. In particular
`tinyobjloader_calloc 10 4` in the initial state is the default `calloc 10 4`,
count and size passed as two arguments in that order; so when the default
`calloc` hands out, on success, a block of `count * size` zero bytes, the
wrapper's result is, on success, a block of 40 zero bytes. -/
theorem initial_state_uses_defaults {W : Type} (P : Platform W)
    (block : W → Ptr → Option (List Nat))
    (hcalloc : ∀ (count size : Nat) (w : W), (P.calloc count size w).1 ≠ NULL →
      block (P.calloc count size w).2 (P.calloc count size w).1 =
        some (List.replicate (count * size) 0))
    (w : W) :
    (initial w).reg =
      { g_tinyobjloader_malloc := NULL, g_tinyobjloader_realloc := NULL,
        g_tinyobjloader_calloc := NULL, g_tinyobjloader_free := NULL } ∧
    (∀ ops : List Op,
      MallocDefault P (run P ops (initial w)) ∧ ReallocDefault P (run P ops (initial w)) ∧
      CallocDefault P (run P ops (initial w)) ∧ FreeDefault P (run P ops (initial w))) ∧
    (tinyobjloader_calloc P 10 4 (initial w)).1 = (P.calloc 10 4 w).1 ∧
    (tinyobjloader_calloc P 10 4 (initial w)).2.world = (P.calloc 10 4 w).2 ∧
    (tinyobjloader_calloc P 10 4 (initial w)).2.trace = [Call.calloc 10 4] ∧
    ((tinyobjloader_calloc P 10 4 (initial w)).1 ≠ NULL →
      block (tinyobjloader_calloc P 10 4 (initial w)).2.world
        (tinyobjloader_calloc P 10 4 (initial w)).1 = some (List.replicate 40 0)) := by
  have hrun : ∀ ops : List Op, (run P ops (initial w)).reg = (initial w).reg :=
    fun ops => run_reg_initial P ops w
  have hc : tinyobjloader_calloc P 10 4 (initial w) =
      ((P.calloc 10 4 w).1,
       { initial w with world := (P.calloc 10 4 w).2, trace := [Call.calloc 10 4] }) :=
    calloc_unset P 10 4 (initial w) rfl
  refine ⟨rfl, fun ops => ⟨?_, ?_, ?_, ?_⟩, ?_, ?_, ?_, ?_⟩
  · exact mallocDefault_of_unset P _ (by rw [hrun]; rfl)
  · exact reallocDefault_of_unset P _ (by rw [hrun]; rfl)
  · exact callocDefault_of_unset P _ (by rw [hrun]; rfl)
  · exact freeDefault_of_unset P _ (by rw [hrun]; rfl)
  · rw [hc]
  · rw [hc]
  · rw [hc]
  · rw [hc]
    exact hcalloc 10 4 w

/-- C8 at a concrete input: on the reference platform, whose `calloc`
zero-fills, the wrapper called with `(10, 4)` in the initial state returns the
address 16 of a block of 40 zero bytes. -/
theorem initial_state_uses_defaults_witness :
    (tinyobjloader_calloc refPlatform 10 4 (initial refEmpty)).1 = 16 ∧
    refBlock (tinyobjloader_calloc refPlatform 10 4 (initial refEmpty)).2.world 16 =
      some (List.replicate 40 0) ∧
    (tinyobjloader_calloc refPlatform 10 4 (initial refEmpty)).2.trace = [Call.calloc 10 4] := by
  have h := initial_state_uses_defaults refPlatform refBlock refCalloc_zeroed refEmpty
  exact ⟨h.2.2.1.trans rfl, h.2.2.2.2.2 (by decide), h.2.2.2.2.1⟩

/-- C9 as stated fails: on the custom path a wrapper does not always leave the
four slots as they were. With `REREGISTERING_MALLOC` registered in the allocate
slot, the call `tinyobjloader_malloc 64` runs the callback (source line 30),
which calls the public setter with four null arguments; the record was
`(20480, 0, 0, 0)` before the wrapper call and is `(0, 0, 0, 0)` after it. -/
theorem reregistering_callback_changes_registration :
    (tinyobj_set_memory_callbacks REREGISTERING_MALLOC NULL NULL NULL
      (initial refEmpty)).reg = ⟨20480, 0, 0, 0⟩ ∧
    (tinyobjloader_malloc refPlatform 64
      (tinyobj_set_memory_callbacks REREGISTERING_MALLOC NULL NULL NULL
        (initial refEmpty))).2.reg = ⟨0, 0, 0, 0⟩ ∧
    (tinyobjloader_malloc refPlatform 64
      (tinyobj_set_memory_callbacks REREGISTERING_MALLOC NULL NULL NULL
        (initial refEmpty))).2.reg ≠
      (tinyobj_set_memory_callbacks REREGISTERING_MALLOC NULL NULL NULL
        (initial refEmpty)).reg ∧
    (run refPlatform [Op.malloc 64]
      (tinyobj_set_memory_callbacks REREGISTERING_MALLOC NULL NULL NULL
        (initial refEmpty))).reg ≠ ⟨REREGISTERING_MALLOC, NULL, NULL, NULL⟩ := by
  refine ⟨rfl, rfl, ?_, ?_⟩ <;> decide

/-- C9, amended: the shim's own code writes no slot. In every state and for all
arguments, a wrapper on the default path leaves the four slots as they were,
and a wrapper on the custom path leaves them as the one custom function it
called left them. Hence, when the registered custom functions leave the
registration alone, each wrapper leaves the four slots as they were, and after
any sequence of wrapper calls the record is what the most recent registration
stored; from the initial state, with no registration, it stays all `NULL`. -/
theorem wrappers_write_no_slot_themselves {W : Type} (P : Platform W) (s : State W) :
    ((s.reg.g_tinyobjloader_malloc = NULL →
        ∀ size : Nat, (tinyobjloader_malloc P size s).2.reg = s.reg) ∧
      (s.reg.g_tinyobjloader_realloc = NULL →
        ∀ (ptr : Ptr) (size : Nat), (tinyobjloader_realloc P ptr size s).2.reg = s.reg) ∧
      (s.reg.g_tinyobjloader_calloc = NULL →
        ∀ count size : Nat, (tinyobjloader_calloc P count size s).2.reg = s.reg) ∧
      (s.reg.g_tinyobjloader_free = NULL →
        ∀ ptr : Ptr, (tinyobjloader_free P ptr s).reg = s.reg)) ∧
    ((s.reg.g_tinyobjloader_malloc ≠ NULL → ∀ size : Nat,
        (tinyobjloader_malloc P size s).2.reg =
          (P.call_malloc s.reg.g_tinyobjloader_malloc size s.store).2.reg) ∧
      (s.reg.g_tinyobjloader_realloc ≠ NULL → ∀ (ptr : Ptr) (size : Nat),
        (tinyobjloader_realloc P ptr size s).2.reg =
          (P.call_realloc s.reg.g_tinyobjloader_realloc ptr size s.store).2.reg) ∧
      (s.reg.g_tinyobjloader_calloc ≠ NULL → ∀ count size : Nat,
        (tinyobjloader_calloc P count size s).2.reg =
          (P.call_calloc s.reg.g_tinyobjloader_calloc count size s.store).2.reg) ∧
      (s.reg.g_tinyobjloader_free ≠ NULL → ∀ ptr : Ptr,
        (tinyobjloader_free P ptr s).reg =
          (P.call_free s.reg.g_tinyobjloader_free ptr s.store).reg)) ∧
    (CalleesKeep P s.reg →
      (∀ size : Nat, (tinyobjloader_malloc P size s).2.reg = s.reg) ∧
      (∀ (ptr : Ptr) (size : Nat), (tinyobjloader_realloc P ptr size s).2.reg = s.reg) ∧
      (∀ count size : Nat, (tinyobjloader_calloc P count size s).2.reg = s.reg) ∧
      (∀ ptr : Ptr, (tinyobjloader_free P ptr s).reg = s.reg) ∧
      (∀ ops : List Op, (run P ops s).reg = s.reg)) ∧
    (∀ (m r c f : FnPtr), CalleesKeep P ⟨m, r, c, f⟩ → ∀ ops : List Op,
      (run P ops (tinyobj_set_memory_callbacks m r c f s)).reg =
        { g_tinyobjloader_malloc := m, g_tinyobjloader_realloc := r,
          g_tinyobjloader_calloc := c, g_tinyobjloader_free := f }) ∧
    (∀ (ops : List Op) (w : W),
      (run P ops (initial w)).reg =
        { g_tinyobjloader_malloc := NULL, g_tinyobjloader_realloc := NULL,
          g_tinyobjloader_calloc := NULL, g_tinyobjloader_free := NULL }) :=
  ⟨⟨fun h size => malloc_reg_unset P size s h,
     fun h ptr size => realloc_reg_unset P ptr size s h,
     fun h count size => calloc_reg_unset P count size s h,
     fun h ptr => free_reg_unset P ptr s h⟩,
   ⟨fun h size => malloc_reg_set P size s h,
     fun h ptr size => realloc_reg_set P ptr size s h,
     fun h count size => calloc_reg_set P count size s h,
     fun h ptr => free_reg_set P ptr s h⟩,
   fun hk =>
    ⟨fun size => malloc_reg_keep P size s hk,
     fun ptr size => realloc_reg_keep P ptr size s hk,
     fun count size => calloc_reg_keep P count size s hk,
     fun ptr => free_reg_keep P ptr s hk,
     fun ops => run_reg_keep P ops s hk⟩,
   fun m r c f hk ops => run_set_reg_keep P ops m r c f s hk,
   fun ops w => run_reg_initial P ops w⟩

/-- C9, amended, at a concrete input: on the reference platform, with the four
benign custom functions registered, five wrapper calls (one through each custom
function, and a second allocate) leave the record as registered. -/
theorem wrappers_write_no_slot_themselves_witness :
    (run refPlatform [Op.malloc 64, Op.realloc 16 32, Op.calloc 10 4, Op.free 4660, Op.malloc 8]
      (tinyobj_set_memory_callbacks SENTINEL_MALLOC FAILING_REALLOC ARENA_CALLOC RECORDING_FREE
        (initial refEmpty))).reg =
      ⟨SENTINEL_MALLOC, FAILING_REALLOC, ARENA_CALLOC, RECORDING_FREE⟩ ∧
    (run refPlatform [Op.malloc 64, Op.realloc 16 32, Op.calloc 10 4, Op.free 4660, Op.malloc 8]
      (tinyobj_set_memory_callbacks SENTINEL_MALLOC FAILING_REALLOC ARENA_CALLOC RECORDING_FREE
        (initial refEmpty))).trace =
      [Call.custom_malloc SENTINEL_MALLOC 64, Call.custom_realloc FAILING_REALLOC 16 32,
       Call.custom_calloc ARENA_CALLOC 10 4, Call.custom_free RECORDING_FREE 4660,
       Call.custom_malloc SENTINEL_MALLOC 8] :=
  ⟨(wrappers_write_no_slot_themselves refPlatform (initial refEmpty)).2.2.2.1
      SENTINEL_MALLOC FAILING_REALLOC ARENA_CALLOC RECORDING_FREE refPlatform_keeps_benign _,
   rfl⟩

end TinyObjLoader
